import Mathlib

/-!
Verification of the natural-language specification of tools/svg2walkable.py
against a shallow embedding of the code.

The script converts SVG path and polygon elements to a JSON list of closed
polygons.  We embed, faithfully to the source:

* the tokenizer, a model of the regex scan
  CMD = re.compile(r"[MmLlHhVvZz]|NUM") with
  NUM = r"[+-]?(?:\d+(?:\.\d*)?|\.\d+)(?:[eE][+-]?\d+)?"
  over a character list, with regex findall semantics: at each position a
  command letter wins, otherwise a maximal-munch number is read, otherwise
  the character is skipped.  Numeric values are represented exactly as
  rationals (the claims involve only exactly representable values).
* path_to_points, the state machine interpreter for M/m/L/l/H/h/V/v/Z/z,
  as a fuel-indexed loop (the source loop can fail to advance, e.g. a
  number token under an active Z command, so fuel models divergence:
  a result of none means the loop did not finish within the given fuel).
* polygon_points_attr_to_list, the points-attribute pair scanner.
* the transform attribute scanner and translate/scale accumulation of main,
  and apply_simple_transform.
* select_elements and the selector/fallback logic of main, over a document
  modelled as the list of its elements in document order.
* the per-element loop of main including the try/except that skips a path
  element whose parse raised ValueError, and the --select argument parsing.
-/

set_option maxRecDepth 100000

deriving instance DecidableEq for Except

namespace Svg2Walkable

abbrev Point : Type := ℚ × ℚ
abbrev Poly : Type := List Point

/-- Last element of a list with a default, modelling the Python index [-1]. -/
def lastD {α : Type} (d : α) : List α → α
  | [] => d
  | [a] => a
  | _ :: b :: l => lastD d (b :: l)

/-- Tokens of the path mini-language: a command letter or a number
(the source keeps both as strings and re-tests with a fullmatch; the
letter/number distinction is the same). -/
inductive Tok where
  | cmd (c : Char)
  | num (q : ℚ)
deriving DecidableEq, Repr

/-- Errors raised inside path_to_points; all are ValueError in the source.
unexpectedEnd is "Unexpected end of path data", unsupported is
"Unsupported path command: ...", floatConv is the ValueError raised by
float() applied to a command-letter token. -/
inductive PathErr where
  | unexpectedEnd
  | floatConv
  | unsupported (c : Option Char)
deriving DecidableEq, Repr

/-- The ten command letters accepted by the CMD regex alternation. -/
def isCmdChar (c : Char) : Bool :=
  ['M', 'm', 'L', 'l', 'H', 'h', 'V', 'v', 'Z', 'z'].contains c

/-- Greedily read a run of ASCII decimal digits, returning their values. -/
def takeDigits : List Char → List Nat × List Char
  | [] => ([], [])
  | c :: cs =>
    if c.isDigit then
      let p := takeDigits cs
      ((c.toNat - 48) :: p.1, p.2)
    else ([], c :: cs)

def digitsVal (ds : List Nat) : Nat := ds.foldl (fun a d => 10 * a + d) 0

/-- Optional exponent part (?:[eE][+-]?\d+)? of the NUM regex: consumed only
when at least one digit follows, otherwise nothing is consumed. -/
def matchExp (q : ℚ) (s : List Char) : ℚ × List Char :=
  match s with
  | [] => (q, [])
  | c :: rest =>
    if c = 'e' ∨ c = 'E' then
      let sr : Bool × List Char :=
        match rest with
        | '+' :: r => (false, r)
        | '-' :: r => (true, r)
        | r => (false, r)
      let p := takeDigits sr.2
      if p.1 = [] then (q, s)
      else
        let e := digitsVal p.1
        (if sr.1 then q / 10 ^ e else q * 10 ^ e, p.2)
    else (q, s)

/-- Maximal-munch match of the NUM regex at the head of the string, giving
the value and the remaining characters; none when no number starts here. -/
def matchNum (s : List Char) : Option (ℚ × List Char) :=
  let sg : ℚ × List Char :=
    match s with
    | '+' :: r => (1, r)
    | '-' :: r => (-1, r)
    | r => (1, r)
  match sg.2 with
  | '.' :: r =>
    let p := takeDigits r
    if p.1 = [] then none
    else
      let base : ℚ := (digitsVal p.1 : ℚ) / 10 ^ p.1.length
      some (matchExp (sg.1 * base) p.2)
  | r =>
    let p := takeDigits r
    if p.1 = [] then none
    else
      match p.2 with
      | '.' :: r2 =>
        let f := takeDigits r2
        let base : ℚ := (digitsVal p.1 : ℚ) + (digitsVal f.1 : ℚ) / 10 ^ f.1.length
        some (matchExp (sg.1 * base) f.2)
      | r2 => some (matchExp (sg.1 * (digitsVal p.1 : ℚ)) r2)

/-- CMD.findall: scan left to right; a command letter is a token, else try a
number, else skip one character.  Fuel bounds the scan by the string length. -/
def tokenizeGo : Nat → List Char → List Tok
  | 0, _ => []
  | _, [] => []
  | f + 1, c :: cs =>
    if isCmdChar c then Tok.cmd c :: tokenizeGo f cs
    else
      match matchNum (c :: cs) with
      | some p => Tok.num p.1 :: tokenizeGo f p.2
      | none => tokenizeGo f cs

def tokenize (s : List Char) : List Tok := tokenizeGo s.length s

/-- polys[-1].append(pt): append a point to the last subpath. -/
def appendLast (polys : List Poly) (pt : Point) : List Poly :=
  polys.dropLast ++ [lastD [] polys ++ [pt]]

/-- The coordinate-pair loop of the M/m branch: consume (x,y) pairs while the
next token is not a command letter, each appended to the in-progress subpath
(relative pairs offset from the subpath's current last point).  Running out
of tokens after the x of a pair is "Unexpected end of path data"; a command
letter at the y position is the float() conversion error. -/
def movPairs (rel : Bool) : List Tok → Poly → Point → Except PathErr (Poly × Point × List Tok)
  | [], poly, cur => Except.ok (poly, cur, [])
  | Tok.cmd c :: rest, poly, cur => Except.ok (poly, cur, Tok.cmd c :: rest)
  | [Tok.num _], _, _ => Except.error PathErr.unexpectedEnd
  | Tok.num _ :: Tok.cmd _ :: _, _, _ => Except.error PathErr.floatConv
  | Tok.num x :: Tok.num y :: rest, poly, _ =>
    let base := lastD (0, 0) poly
    let nxt : Point := if rel then (base.1 + x, base.2 + y) else (x, y)
    movPairs rel rest (poly ++ [nxt]) nxt

/-- The pair loop of the L/l branch: as movPairs but appending to polys[-1]
and with relative pairs offset from the cursor. -/
def linPairs (rel : Bool) : List Tok → List Poly → Point → Except PathErr (List Poly × Point × List Tok)
  | [], polys, cur => Except.ok (polys, cur, [])
  | Tok.cmd c :: rest, polys, cur => Except.ok (polys, cur, Tok.cmd c :: rest)
  | [Tok.num _], _, _ => Except.error PathErr.unexpectedEnd
  | Tok.num _ :: Tok.cmd _ :: _, _, _ => Except.error PathErr.floatConv
  | Tok.num x :: Tok.num y :: rest, polys, cur =>
    let nxt : Point := if rel then (cur.1 + x, cur.2 + y) else (x, y)
    linPairs rel rest (appendLast polys nxt) nxt

/-- The single-number loop of the H/h branch. -/
def hNums (rel : Bool) : List Tok → List Poly → Point → List Poly × Point × List Tok
  | [], polys, cur => (polys, cur, [])
  | Tok.cmd c :: rest, polys, cur => (polys, cur, Tok.cmd c :: rest)
  | Tok.num x :: rest, polys, cur =>
    let nxt : Point := if rel then (cur.1 + x, cur.2) else (x, cur.2)
    hNums rel rest (appendLast polys nxt) nxt

/-- The single-number loop of the V/v branch. -/
def vNums (rel : Bool) : List Tok → List Poly → Point → List Poly × Point × List Tok
  | [], polys, cur => (polys, cur, [])
  | Tok.cmd c :: rest, polys, cur => (polys, cur, Tok.cmd c :: rest)
  | Tok.num y :: rest, polys, cur =>
    let nxt : Point := if rel then (cur.1, cur.2 + y) else (cur.1, y)
    vNums rel rest (appendLast polys nxt) nxt

/-- The final closing pass applied to each subpath:
if poly and poly[0] != poly[-1]: poly.append(poly[0]). -/
def closePoly (p : Poly) : Poly :=
  if p ≠ [] ∧ p.headD (0, 0) ≠ lastD (0, 0) p then p ++ [p.headD (0, 0)] else p

/-- The main while-loop of path_to_points.  State: remaining tokens, cursor,
subpath start marker, subpaths so far, active command.  A command-letter
token updates the active command and is consumed; the dispatch then follows
the if-chain of the source.  Fuel counts loop iterations: the source loop
does not advance on a number token under an active Z/z command (or when no
command is active, where it raises), so a none result models
non-termination within the given fuel. -/
def interpLoop : Nat → List Tok → Point → Option Point → List Poly → Option Char →
    Option (Except PathErr (List Poly))
  | _, [], _, _, polys, _ => some (Except.ok (polys.map closePoly))
  | 0, _ :: _, _, _, _, _ => none
  | fuel + 1, t :: rest, cur, start0, polys, cmd0 =>
    let cmd : Option Char := match t with | Tok.cmd c => some c | Tok.num _ => cmd0
    let toks : List Tok := match t with | Tok.cmd _ => rest | Tok.num q => Tok.num q :: rest
    if cmd = some 'M' ∨ cmd = some 'm' then
      match toks with
      | [] => some (Except.error PathErr.unexpectedEnd)
      | Tok.cmd _ :: _ => some (Except.error PathErr.floatConv)
      | Tok.num x :: toks1 =>
        match toks1 with
        | [] => some (Except.error PathErr.unexpectedEnd)
        | Tok.cmd _ :: _ => some (Except.error PathErr.floatConv)
        | Tok.num y :: toks2 =>
          let cur1 : Point := if cmd = some 'm' then (cur.1 + x, cur.2 + y) else (x, y)
          match movPairs (cmd == some 'm') toks2 [cur1] cur1 with
          | Except.error e => some (Except.error e)
          | Except.ok r => interpLoop fuel r.2.2 r.2.1 (some cur1) (polys ++ [r.1]) cmd
    else if cmd = some 'L' ∨ cmd = some 'l' then
      let polys1 := if polys = [] then [[cur]] else polys
      match linPairs (cmd == some 'l') toks polys1 cur with
      | Except.error e => some (Except.error e)
      | Except.ok r => interpLoop fuel r.2.2 r.2.1 start0 r.1 cmd
    else if cmd = some 'H' ∨ cmd = some 'h' then
      let polys1 := if polys = [] then [[cur]] else polys
      let r := hNums (cmd == some 'h') toks polys1 cur
      interpLoop fuel r.2.2 r.2.1 start0 r.1 cmd
    else if cmd = some 'V' ∨ cmd = some 'v' then
      let polys1 := if polys = [] then [[cur]] else polys
      let r := vNums (cmd == some 'v') toks polys1 cur
      interpLoop fuel r.2.2 r.2.1 start0 r.1 cmd
    else if cmd = some 'Z' ∨ cmd = some 'z' then
      -- the transient re-assignment of start before it is reset has no
      -- observable effect and is omitted
      if polys ≠ [] ∧ lastD [] polys ≠ [] then
        let lp := lastD [] polys
        let closed := if lp.headD (0, 0) ≠ lastD (0, 0) lp then lp ++ [lp.headD (0, 0)] else lp
        interpLoop fuel toks (lastD (0, 0) closed) none (polys.dropLast ++ [closed]) cmd
      else interpLoop fuel toks cur none polys cmd
    else some (Except.error (PathErr.unsupported cmd))

/-- path_to_points: tokenize the d string and run the interpreter loop from
cur = [0,0], start = None, polys = [], cmd = None. -/
def path_to_points (fuel : Nat) (dstr : String) : Option (Except PathErr (List Poly)) :=
  interpLoop fuel (tokenize dstr.data) (0, 0) none [] none

/-- Python str.strip / the regex class \s, restricted to ASCII whitespace. -/
def isPySpace (c : Char) : Bool :=
  [' ', '\t', '\n', '\x0d', '\x0b', '\x0c'].contains c

/-- Separators of coordinate pairs and of transform arguments: [,\s]. -/
def isSepChar (c : Char) : Bool := isPySpace c || c == ','

/-- Python str.strip(): drop leading and trailing whitespace. -/
def pyStrip (s : List Char) : List Char :=
  ((s.dropWhile isPySpace).reverse.dropWhile isPySpace).reverse

/-- One match of the pair regex (NUM)[,\s]+(NUM) at the head of the string:
a number, at least one separator, and a second number. -/
def matchPair (s : List Char) : Option (Point × List Char) :=
  match matchNum s with
  | none => none
  | some xr =>
    let seps := xr.2.takeWhile isSepChar
    if seps = [] then none
    else
      match matchNum (xr.2.drop seps.length) with
      | none => none
      | some yr => some ((xr.1, yr.1), yr.2)

/-- findall of the pair regex: scan left to right, skipping a character when
no pair starts here; matches do not overlap. -/
def extractPairsGo : Nat → List Char → List Point
  | 0, _ => []
  | _, [] => []
  | f + 1, c :: cs =>
    match matchPair (c :: cs) with
    | some p => p.1 :: extractPairsGo f p.2
    | none => extractPairsGo f cs

/-- polygon_points_attr_to_list: collect the coordinate pairs of the points
attribute and close the ring (append the first point when it differs from
the last; the closing step is the same code shape as closePoly). -/
def polygon_points_attr_to_list (s : String) : Poly :=
  closePoly (extractPairsGo (pyStrip s.data).length (pyStrip s.data))

/-- apply_simple_transform (line 39): x' = sx*x + tx, y' = sy*y + ty. -/
def apply_simple_transform (points : Poly) (sx sy tx ty : ℚ) : Poly :=
  points.map (fun p => (sx * p.1 + tx, sy * p.2 + ty))

/-- The two transform function names recognized by the scan
(translate|scale)\s*\(([^)]+)\); anything else is skipped. -/
inductive TKind where
  | translate
  | scale
deriving DecidableEq, Repr

/-- One match of the transform-call regex at the head of the string: the
keyword, optional whitespace, an opening parenthesis, a nonempty argument
text without a closing parenthesis, and the closing parenthesis. -/
def matchTCall (s : List Char) : Option ((TKind × List Char) × List Char) :=
  let kr : Option (TKind × List Char) :=
    if "translate".data.isPrefixOf s then some (TKind.translate, s.drop 9)
    else if "scale".data.isPrefixOf s then some (TKind.scale, s.drop 5)
    else none
  match kr with
  | none => none
  | some kr1 =>
    match kr1.2.dropWhile isPySpace with
    | '(' :: r3 =>
      let content := r3.takeWhile (fun c => c != ')')
      if content = [] then none
      else
        match r3.drop content.length with
        | ')' :: r4 => some ((kr1.1, content), r4)
        | _ => none
    | _ => none

/-- finditer of the transform-call regex, left to right. -/
def scanTCallsGo : Nat → List Char → List (TKind × List Char)
  | 0, _ => []
  | _, [] => []
  | f + 1, c :: cs =>
    match matchTCall (c :: cs) with
    | some p => p.1 :: scanTCallsGo f p.2
    | none => scanTCallsGo f cs

/-- Maximal runs of non-separator characters: re.split on a separator run
followed by the filter that drops empty pieces (empties arise only at the
ends, so the filtered result is exactly the runs). -/
def runsBy (sep : Char → Bool) : Nat → List Char → List (List Char)
  | 0, _ => []
  | _, [] => []
  | f + 1, c :: cs =>
    if sep c then runsBy sep f cs
    else (c :: cs.takeWhile (fun x => !sep x)) ::
      runsBy sep f (cs.dropWhile (fun x => !sep x))

/-- float() applied to one argument piece.  Modelled on the decimal and
scientific grammar of NUM; pieces that float() would also accept but that
have no rational value (inf, nan) or use underscores are outside the model
and give none, as does any piece on which float() raises. -/
def pyFloat (s : List Char) : Option ℚ :=
  match matchNum s with
  | some (q, []) => some q
  | _ => none

def optList {α : Type} : List (Option α) → Option (List α)
  | [] => some []
  | none :: _ => none
  | some a :: rest => (optList rest).map (fun l => a :: l)

/-- Model of [float(x) for x in re.split(r"[,\s]+", args.strip()) if x];
none models an uncaught ValueError from float(). -/
def parse_args (content : List Char) : Option (List ℚ) :=
  let st := pyStrip content
  optList ((runsBy isSepChar st.length st).map pyFloat)

/-- One step of the translate/scale accumulation of main (lines 234-246),
acting on (sx, sy, tx, ty). -/
def tstep (acc : ℚ × ℚ × ℚ × ℚ) (call : TKind × List ℚ) : ℚ × ℚ × ℚ × ℚ :=
  match acc, call with
  | (sx, sy, tx, ty), (TKind.translate, args) =>
    if args.length = 1 then (sx, sy, tx + args.headD 0, ty)
    else if 2 ≤ args.length then (sx, sy, tx + args.headD 0, ty + args.getD 1 0)
    else (sx, sy, tx, ty)
  | (sx, sy, tx, ty), (TKind.scale, args) =>
    if args.length = 1 then (sx * args.headD 0, sy * args.headD 0, tx, ty)
    else if 2 ≤ args.length then (sx * args.headD 0, sy * args.getD 1 0, tx, ty)
    else (sx, sy, tx, ty)

/-- Left-to-right accumulation of the extracted calls over a start state. -/
def accum_transforms (init : ℚ × ℚ × ℚ × ℚ) (calls : List (TKind × List ℚ)) : ℚ × ℚ × ℚ × ℚ :=
  calls.foldl tstep init

/-- The whole transform-attribute handling of main: scan the calls, parse
each argument list with float(), and accumulate starting from
sx = sy = 1, tx = ty = 0. -/
def parse_transform (s : String) : Option (ℚ × ℚ × ℚ × ℚ) :=
  (optList ((scanTCallsGo s.data.length s.data).map
    (fun kc => (parse_args kc.2).map (fun a => (kc.1, a))))).map
    (accum_transforms (1, 1, 0, 0))

/-- An element of the parsed document: tag and the attributes the script
reads.  cls is the class attribute; label the inkscape-namespaced label. -/
structure Elem where
  tag : String
  id : Option String
  cls : Option String
  label : Option String
  d : Option String
  points : Option String
  transform : Option String
deriving DecidableEq, Repr

def svgPathTag : String := "\x7bhttp://www.w3.org/2000/svg\x7dpath"

def svgPolygonTag : String := "\x7bhttp://www.w3.org/2000/svg\x7dpolygon"

/-- el.tag.endswith(suf). -/
def strEnds (s suf : String) : Bool := suf.data.isSuffixOf s.data

/-- Python truthiness of el.get(attr): false for a missing attribute (None)
and for the empty string. -/
def truthyS (o : Option String) : Bool := !(o.getD "" == "")

/-- The output trimming of main (lines 250-252):
if pts and pts[0] == pts[-1]: pts = pts[:-1]. -/
def dropClosing (pts : Poly) : Poly :=
  if pts ≠ [] ∧ pts.headD (0, 0) = lastD (0, 0) pts then pts.dropLast else pts

/-- Transform parsing plus the per-polygon serialization of one element:
apply the accumulated transform and drop a duplicated closing point.  none
models the uncaught float() ValueError in transform parsing. -/
def serialize_polys (el : Elem) (polys : List Poly) : Option (List Poly) :=
  match (if truthyS el.transform then parse_transform (el.transform.getD "")
         else some (1, 1, 0, 0)) with
  | none => none
  | some acc =>
    some (polys.map (fun p => dropClosing (apply_simple_transform p acc.1 acc.2.1 acc.2.2.1 acc.2.2.2)))

/-- One iteration of the element loop of main: (number of skip warnings
printed, polygons appended to all_polys).  A ValueError from path_to_points
is caught: the element is skipped with a warning.  none models either fuel
exhaustion of the path interpreter or an uncaught transform error. -/
def process_element (fuel : Nat) (el : Elem) : Option (Nat × List Poly) :=
  if strEnds el.tag "path" && truthyS el.d then
    match path_to_points fuel (el.d.getD "") with
    | none => none
    | some (Except.error _) => some (1, [])
    | some (Except.ok polys) => (serialize_polys el polys).map (fun ps => (0, ps))
  else if strEnds el.tag "polygon" && truthyS el.points then
    (serialize_polys el [polygon_points_attr_to_list (el.points.getD "")]).map
      (fun ps => (0, ps))
  else some (0, [])

/-- The element loop of main over the selected elements, collecting warnings
and all_polys in order. -/
def process_elements (fuel : Nat) : List Elem → Option (Nat × List Poly)
  | [] => some (0, [])
  | el :: rest =>
    match process_element fuel el with
    | none => none
    | some wp =>
      match process_elements fuel rest with
      | none => none
      | some wp2 => some (wp.1 + wp2.1, wp.2 ++ wp2.2)

/-- Whitespace-separated token list, (el.get("class") or "").split(). -/
def splitWs (s : List Char) : List (List Char) := runsBy isPySpace s.length s

/-- The per-element test of select_elements for one key/value pair. -/
def matchSel (key val : String) (el : Elem) : Bool :=
  if key = "id" then el.id == some val
  else if key = "class" then (splitWs (el.cls.getD "").data).contains val.data
  else if key = "label" then el.label == some val
  else false

/-- root.findall(".//svg:path") over the document in document order. -/
def findPaths (doc : List Elem) : List Elem :=
  doc.filter (fun el => el.tag == svgPathTag)

/-- root.findall(".//svg:polygon") over the document in document order. -/
def findPolygons (doc : List Elem) : List Elem :=
  doc.filter (fun el => el.tag == svgPolygonTag)

/-- select_elements: matching paths in document order, then matching
polygons in document order. -/
def select_elements (doc : List Elem) (key val : String) : List Elem :=
  (findPaths doc).filter (matchSel key val) ++ (findPolygons doc).filter (matchSel key val)

/-- The fallback element list: all paths, then all polygons (lines 206-208). -/
def all_paths_polygons (doc : List Elem) : List Elem :=
  findPaths doc ++ findPolygons doc

/-- The selector logic of main (lines 200-208): run select_elements only
when both key and val are truthy; warn when that selection is empty; fall
back to all paths and polygons whenever the list is still empty.  The Bool
is whether the no-match warning was printed. -/
def choose_elems (key val : Option String) (doc : List Elem) : Bool × List Elem :=
  let elems := if truthyS key && truthyS val then
      select_elements doc (key.getD "") (val.getD "") else []
  let warn := (truthyS key && truthyS val) && elems.isEmpty
  (warn, if elems.isEmpty then all_paths_polygons doc else elems)

/-- Python s.split(sep) for a one-character separator: every occurrence
splits, empty pieces kept. -/
def splitAllC : List Char → Char → List (List Char)
  | [], _ => [[]]
  | c :: cs, sep =>
    if c = sep then [] :: splitAllC cs sep
    else
      match splitAllC cs sep with
      | [] => [[c]]
      | pre :: rest => (c :: pre) :: rest

/-- Python s.split(sep, 1): split at the first occurrence only. -/
def splitOnce1 : List Char → Char → List (List Char)
  | [], _ => [[]]
  | c :: cs, sep =>
    if c = sep then [[], cs]
    else
      match splitOnce1 cs sep with
      | [] => [[c]]
      | pre :: rest => (c :: pre) :: rest

/-- Outcome of the --select handling of main (lines 188-195). -/
inductive SelectOutcome where
  | noSel
  | withSel (key val : String)
  | exit2
deriving DecidableEq, Repr

/-- The --select argument parsing: when a fourth argv entry starts with
"--select", take piece 1 of its split on "=" (an IndexError here, and a
failed two-name unpacking below, are both caught and end the run with exit
code 2), then split that piece on "=" if it contains one, else on ":". -/
def parse_select (argv : List String) : SelectOutcome :=
  if 4 ≤ argv.length then
    if "--select".data.isPrefixOf (argv.getD 3 "").data then
      match (splitAllC (argv.getD 3 "").data '=').get? 1 with
      | none => SelectOutcome.exit2
      | some kv =>
        match (if kv.contains '=' then splitOnce1 kv '=' else splitOnce1 kv ':') with
        | [k, v] => SelectOutcome.withSel (String.mk k) (String.mk v)
        | _ => SelectOutcome.exit2
    else SelectOutcome.noSel
  else SelectOutcome.noSel

/-! ### Helper lemmas -/

theorem lastD_cons_cons {α : Type} (d x b : α) (l : List α) :
    lastD d (x :: b :: l) = lastD d (b :: l) := rfl

theorem lastD_concat {α : Type} (d a : α) (l : List α) : lastD d (l ++ [a]) = a := by
  induction l with
  | nil => rfl
  | cons x xs ih =>
    cases xs with
    | nil => rfl
    | cons y ys =>
      simp only [List.cons_append] at ih ⊢
      rw [lastD_cons_cons]
      exact ih

theorem closePoly_ne_closed (p : Poly) (h : p ≠ []) :
    closePoly p ≠ [] ∧ (closePoly p).headD (0, 0) = lastD (0, 0) (closePoly p) := by
  obtain ⟨x, xs, rfl⟩ := List.exists_cons_of_ne_nil h
  unfold closePoly
  by_cases he : x = lastD (0, 0) (x :: xs)
  · rw [if_neg (fun hc => hc.2 he)]
    exact ⟨List.cons_ne_nil x xs, he⟩
  · rw [if_pos ⟨List.cons_ne_nil x xs, fun hh => he hh⟩]
    refine ⟨by simp, ?_⟩
    rw [lastD_concat]
    rfl

theorem appendLast_all_ne {polys : List Poly} (h : ∀ p ∈ polys, p ≠ []) (pt : Point) :
    ∀ p ∈ appendLast polys pt, p ≠ [] := by
  intro p hp
  rcases List.mem_append.mp hp with h1 | h1
  · exact h p ((List.dropLast_sublist polys).subset h1)
  · rw [List.mem_singleton.mp h1]
    simp

theorem movPairs_ne (rel : Bool) : ∀ (toks : List Tok) (poly : Poly) (cur : Point)
    (r : Poly × Point × List Tok), movPairs rel toks poly cur = Except.ok r →
    poly ≠ [] → r.1 ≠ []
  | [], poly, cur, r, h, hne => by
    simp only [movPairs, Except.ok.injEq] at h
    rw [← h]
    exact hne
  | Tok.cmd c :: rest, poly, cur, r, h, hne => by
    simp only [movPairs, Except.ok.injEq] at h
    rw [← h]
    exact hne
  | [Tok.num x], poly, cur, r, h, hne => by
    simp [movPairs] at h
  | Tok.num x :: Tok.cmd c :: rest, poly, cur, r, h, hne => by
    simp [movPairs] at h
  | Tok.num x :: Tok.num y :: rest, poly, cur, r, h, hne => by
    simp only [movPairs] at h
    exact movPairs_ne rel rest _ _ r h (by simp)

theorem linPairs_all_ne (rel : Bool) : ∀ (toks : List Tok) (polys : List Poly) (cur : Point)
    (r : List Poly × Point × List Tok), linPairs rel toks polys cur = Except.ok r →
    (∀ p ∈ polys, p ≠ []) → ∀ p ∈ r.1, p ≠ []
  | [], polys, cur, r, h, hne => by
    simp only [linPairs, Except.ok.injEq] at h
    rw [← h]
    exact hne
  | Tok.cmd c :: rest, polys, cur, r, h, hne => by
    simp only [linPairs, Except.ok.injEq] at h
    rw [← h]
    exact hne
  | [Tok.num x], polys, cur, r, h, hne => by
    simp [linPairs] at h
  | Tok.num x :: Tok.cmd c :: rest, polys, cur, r, h, hne => by
    simp [linPairs] at h
  | Tok.num x :: Tok.num y :: rest, polys, cur, r, h, hne => by
    simp only [linPairs] at h
    exact linPairs_all_ne rel rest _ _ r h (appendLast_all_ne hne _)

theorem hNums_all_ne (rel : Bool) : ∀ (toks : List Tok) (polys : List Poly) (cur : Point),
    (∀ p ∈ polys, p ≠ []) → ∀ p ∈ (hNums rel toks polys cur).1, p ≠ []
  | [], polys, cur, hne => by
    simpa only [hNums] using hne
  | Tok.cmd c :: rest, polys, cur, hne => by
    simpa only [hNums] using hne
  | Tok.num x :: rest, polys, cur, hne => by
    simp only [hNums]
    exact hNums_all_ne rel rest _ _ (appendLast_all_ne hne _)

theorem vNums_all_ne (rel : Bool) : ∀ (toks : List Tok) (polys : List Poly) (cur : Point),
    (∀ p ∈ polys, p ≠ []) → ∀ p ∈ (vNums rel toks polys cur).1, p ≠ []
  | [], polys, cur, hne => by
    simpa only [vNums] using hne
  | Tok.cmd c :: rest, polys, cur, hne => by
    simpa only [vNums] using hne
  | Tok.num y :: rest, polys, cur, hne => by
    simp only [vNums]
    exact vNums_all_ne rel rest _ _ (appendLast_all_ne hne _)

/-- Invariant of the interpreter loop: when it finishes with Except.ok, every
returned subpath is nonempty and closed, provided every accumulated subpath so
far is nonempty (which holds initially, with no subpaths). -/
theorem interpLoop_ok_closed : ∀ (fuel : Nat) (toks : List Tok) (cur : Point)
    (start0 : Option Point) (polys : List Poly) (cmd0 : Option Char) (res : List Poly),
    interpLoop fuel toks cur start0 polys cmd0 = some (Except.ok res) →
    (∀ p ∈ polys, p ≠ []) →
    ∀ q ∈ res, q ≠ [] ∧ q.headD (0, 0) = lastD (0, 0) q := by
  intro fuel
  induction fuel with
  | zero =>
    intro toks cur start0 polys cmd0 res h hne q hq
    cases toks with
    | nil =>
      simp only [interpLoop, Option.some.injEq, Except.ok.injEq] at h
      subst h
      obtain ⟨p, hp, rfl⟩ := List.mem_map.mp hq
      exact closePoly_ne_closed p (hne p hp)
    | cons t rest => simp [interpLoop] at h
  | succ f ih =>
    intro toks cur start0 polys cmd0 res h hne
    cases toks with
    | nil =>
      intro q hq
      simp only [interpLoop, Option.some.injEq, Except.ok.injEq] at h
      subst h
      obtain ⟨p, hp, rfl⟩ := List.mem_map.mp hq
      exact closePoly_ne_closed p (hne p hp)
    | cons t rest =>
      simp only [interpLoop] at h
      split at h
      · -- M/m branch
        split at h
        · exact absurd h (by simp)
        · exact absurd h (by simp)
        · split at h
          · exact absurd h (by simp)
          · exact absurd h (by simp)
          · split at h
            · exact absurd h (by simp)
            · rename_i r heq
              refine ih _ _ _ _ _ _ h ?_
              intro p hp
              rcases List.mem_append.mp hp with h1 | h1
              · exact hne p h1
              · rw [List.mem_singleton.mp h1]
                exact movPairs_ne _ _ _ _ r heq (by simp)
      · split at h
        · -- L/l branch
          split at h
          · exact absurd h (by simp)
          · rename_i r heq
            refine ih _ _ _ _ _ _ h ?_
            refine linPairs_all_ne _ _ _ _ r heq ?_
            intro p hp
            by_cases hpe : polys = []
            · rw [if_pos hpe] at hp
              rw [List.mem_singleton.mp hp]
              simp
            · exact hne p (by rwa [if_neg hpe] at hp)
        · split at h
          · -- H/h branch
            refine ih _ _ _ _ _ _ h ?_
            refine hNums_all_ne _ _ _ _ ?_
            intro p hp
            by_cases hpe : polys = []
            · rw [if_pos hpe] at hp
              rw [List.mem_singleton.mp hp]
              simp
            · exact hne p (by rwa [if_neg hpe] at hp)
          · split at h
            · -- V/v branch
              refine ih _ _ _ _ _ _ h ?_
              refine vNums_all_ne _ _ _ _ ?_
              intro p hp
              by_cases hpe : polys = []
              · rw [if_pos hpe] at hp
                rw [List.mem_singleton.mp hp]
                simp
              · exact hne p (by rwa [if_neg hpe] at hp)
            · split at h
              · -- Z/z branch
                split at h
                · rename_i hz
                  refine ih _ _ _ _ _ _ h ?_
                  intro p hp
                  rcases List.mem_append.mp hp with h1 | h1
                  · exact hne p ((List.dropLast_sublist polys).subset h1)
                  · rw [List.mem_singleton.mp h1]
                    split
                    · simp
                    · exact hz.2
                · exact ih _ _ _ _ _ _ h hne
              · -- unsupported command
                exact absurd h (by simp)

/-! ### Claim theorems -/

/-- C1: the claim says a command letter outside the supported set (e.g. a
cubic-curve C) makes interpretation fail with the UnsupportedCommand error
and the element contribute zero polygons.  The code does otherwise: the
tokenizer regex simply skips characters it does not match, so the C is
dropped, its numeric arguments are consumed as implicit linetos of the
preceding command, and path_to_points returns a polygon with no error. -/
theorem c1_unsupported_letter_is_dropped :
    path_to_points 100 "M0,0 C1,1 2,2 3,3" =
      some (Except.ok [[(0, 0), (1, 1), (2, 2), (3, 3), (0, 0)]]) ∧
    tokenize "C".data = [] := by
  constructor
  · with_unfolding_all decide
  · with_unfolding_all decide

/-- C2: for every path-data string on which the interpreter succeeds, every
returned subpath is nonempty and has its first point equal to its last
point; the end-of-input closing pass guarantees this. -/
theorem c2_subpaths_closed (dstr : String) (fuel : Nat) (polys : List Poly)
    (h : path_to_points fuel dstr = some (Except.ok polys)) :
    ∀ p ∈ polys, p ≠ [] ∧ p.headD (0, 0) = lastD (0, 0) p := by
  intro p hp
  exact interpLoop_ok_closed fuel (tokenize dstr.data) (0, 0) none [] none polys h
    (by intro q hq; simp at hq) p hp

theorem c2_witness :
    ([(1, 2), (3, 4), (1, 2)] : Poly) ≠ [] ∧
    ([(1, 2), (3, 4), (1, 2)] : Poly).headD (0, 0) =
      lastD (0, 0) ([(1, 2), (3, 4), (1, 2)] : Poly) :=
  c2_subpaths_closed "M1,2 L3,4 z" 20 [[(1, 2), (3, 4), (1, 2)]]
    (by with_unfolding_all decide) [(1, 2), (3, 4), (1, 2)] (by simp)

/-- C3: the claim says an invocation with arguments
input.svg output.json --select KEY=VALUE proceeds with selector (KEY, VALUE)
and only an unsplittable --select argument exits with code 2.  The code does
otherwise: for the documented form the argument "--select" itself is split
on "=", indexing piece 1 raises IndexError, and the run exits with code 2;
the attached form --select=KEY=VALUE also exits 2 (the value is cut off by
the full split), and only the undocumented form --select=KEY:VALUE parses. -/
theorem c3_select_argument_rejected :
    parse_select ["svg2walkable.py", "input.svg", "output.json", "--select", "id=walkable"] =
      SelectOutcome.exit2 ∧
    parse_select ["svg2walkable.py", "input.svg", "output.json", "--select=id=walkable"] =
      SelectOutcome.exit2 ∧
    parse_select ["svg2walkable.py", "input.svg", "output.json", "--select=id:walkable"] =
      SelectOutcome.withSel "id" "walkable" := by
  refine ⟨?_, ?_, ?_⟩ <;> with_unfolding_all decide

/-- C4: the path "M0,0 L10,0 20,0 30,0" yields exactly one subpath whose
vertices before the final closing point are [0,0],[10,0],[20,0],[30,0]:
the extra pairs are implicit repeats of L, not new subpaths. -/
theorem c4_implicit_repeat :
    path_to_points 100 "M0,0 L10,0 20,0 30,0" =
      some (Except.ok [[(0, 0), (10, 0), (20, 0), (30, 0), (0, 0)]]) := by
  with_unfolding_all decide

/-- C5: relative commands compose against the running cursor:
"M0,0 l10,0 l0,10 z" gives the closed ring [0,0],[10,0],[10,10],[0,0], and
after the serializer drops the duplicated closing point the emitted polygon
is [[0,0],[10,0],[10,10]]. -/
theorem c5_relative_commands :
    path_to_points 100 "M0,0 l10,0 l0,10 z" =
      some (Except.ok [[(0, 0), (10, 0), (10, 10), (0, 0)]]) ∧
    process_elements 100 [Elem.mk svgPathTag none none none (some "M0,0 l10,0 l0,10 z") none none] =
      some (0, [[(0, 0), (10, 0), (10, 10)]]) := by
  constructor <;> with_unfolding_all decide

/-- C6: translate calls accumulate additively into (tx,ty) (one argument
adds to tx only), scale calls multiplicatively into (sx,sy) (one argument
multiplies both axes), left to right over the attribute string, applied as
x' = sx*x + tx, y' = sy*y + ty; "scale(2) translate(5,5)" on (1,1) gives
(7,7). -/
theorem c6_transform_accumulation :
    (∀ (points : Poly) (sx sy tx ty : ℚ), apply_simple_transform points sx sy tx ty =
      points.map (fun p => (sx * p.1 + tx, sy * p.2 + ty))) ∧
    (∀ (st : ℚ × ℚ × ℚ × ℚ) (a : ℚ) (rest : List (TKind × List ℚ)),
      accum_transforms st ((TKind.translate, [a]) :: rest) =
        accum_transforms (st.1, st.2.1, st.2.2.1 + a, st.2.2.2) rest) ∧
    (∀ (st : ℚ × ℚ × ℚ × ℚ) (a b : ℚ) (rest : List (TKind × List ℚ)),
      accum_transforms st ((TKind.translate, [a, b]) :: rest) =
        accum_transforms (st.1, st.2.1, st.2.2.1 + a, st.2.2.2 + b) rest) ∧
    (∀ (st : ℚ × ℚ × ℚ × ℚ) (a : ℚ) (rest : List (TKind × List ℚ)),
      accum_transforms st ((TKind.scale, [a]) :: rest) =
        accum_transforms (st.1 * a, st.2.1 * a, st.2.2.1, st.2.2.2) rest) ∧
    (∀ (st : ℚ × ℚ × ℚ × ℚ) (a b : ℚ) (rest : List (TKind × List ℚ)),
      accum_transforms st ((TKind.scale, [a, b]) :: rest) =
        accum_transforms (st.1 * a, st.2.1 * b, st.2.2.1, st.2.2.2) rest) ∧
    parse_transform "scale(2) translate(5,5)" = some (2, 2, 5, 5) ∧
    apply_simple_transform [(1, 1)] 2 2 5 5 = [(7, 7)] := by
  refine ⟨?_, ?_, ?_, ?_, ?_, ?_, ?_⟩
  · intro points sx sy tx ty
    rfl
  · intro st a rest
    obtain ⟨sx, sy, tx, ty⟩ := st
    simp [accum_transforms, tstep]
  · intro st a b rest
    obtain ⟨sx, sy, tx, ty⟩ := st
    simp [accum_transforms, tstep]
  · intro st a rest
    obtain ⟨sx, sy, tx, ty⟩ := st
    simp [accum_transforms, tstep]
  · intro st a b rest
    obtain ⟨sx, sy, tx, ty⟩ := st
    simp [accum_transforms, tstep]
  · with_unfolding_all decide
  · with_unfolding_all decide

/-- C7: the points-attribute parser extracts the coordinate pairs in order
and closes the ring when first and last differ; on
points="0,0 10,0 10,10 0,10" it returns the closed ring and the serialized
form omits the trailing duplicate. -/
theorem c7_polygon_points :
    (∀ s : String, polygon_points_attr_to_list s ≠ [] →
      (polygon_points_attr_to_list s).headD (0, 0) =
        lastD (0, 0) (polygon_points_attr_to_list s)) ∧
    polygon_points_attr_to_list "0,0 10,0 10,10 0,10" =
      [(0, 0), (10, 0), (10, 10), (0, 10), (0, 0)] ∧
    dropClosing [(0, 0), (10, 0), (10, 10), (0, 10), (0, 0)] =
      [(0, 0), (10, 0), (10, 10), (0, 10)] := by
  refine ⟨?_, by with_unfolding_all decide, by with_unfolding_all decide⟩
  intro s hne
  unfold polygon_points_attr_to_list at hne ⊢
  by_cases hp : extractPairsGo (pyStrip s.data).length (pyStrip s.data) = []
  · rw [hp] at hne
    simp [closePoly] at hne
  · exact (closePoly_ne_closed _ hp).2

theorem c7_witness :
    (polygon_points_attr_to_list "0,0 1,1").headD (0, 0) =
      lastD (0, 0) (polygon_points_attr_to_list "0,0 1,1") :=
  c7_polygon_points.1 "0,0 1,1" (by with_unfolding_all decide)

/-- C8: a path-data token stream that ends while a numeric coordinate is
still expected (e.g. "M 5") fails with the UnexpectedEndOfData error, and
the failure is recoverable at element granularity: the element is skipped
with one warning and the remaining elements still produce their output. -/
theorem c8_unexpected_end_recoverable :
    path_to_points 10 "M 5" = some (Except.error PathErr.unexpectedEnd) ∧
    (∀ (f : Nat) (x : ℚ) (cur : Point) (start0 : Option Point) (polys : List Poly)
      (cmd0 : Option Char),
      interpLoop (f + 1) [Tok.cmd 'M', Tok.num x] cur start0 polys cmd0 =
        some (Except.error PathErr.unexpectedEnd)) ∧
    (∀ (f : Nat) (x : ℚ) (cur : Point) (start0 : Option Point) (polys : List Poly)
      (cmd0 : Option Char),
      interpLoop (f + 1) [Tok.cmd 'L', Tok.num x] cur start0 polys cmd0 =
        some (Except.error PathErr.unexpectedEnd)) ∧
    (∀ (fuel : Nat) (pre post : List Elem) (i c l pts tr : Option String) (d : String)
      (e : PathErr), path_to_points fuel d = some (Except.error e) →
      process_elements fuel (pre ++ Elem.mk svgPathTag i c l (some d) pts tr :: post) =
        (process_elements fuel (pre ++ post)).map (fun r => (r.1 + 1, r.2))) := by
  refine ⟨by with_unfolding_all decide, ?_, ?_, ?_⟩
  · intro f x cur start0 polys cmd0
    simp [interpLoop]
  · intro f x cur start0 polys cmd0
    simp [interpLoop, linPairs]
  · intro fuel pre post i c l pts tr d e hfail
    have hd : d ≠ "" := by
      intro hd0
      rw [hd0] at hfail
      have hok : path_to_points fuel "" = some (Except.ok []) := by
        cases fuel <;> rfl
      rw [hok] at hfail
      simp at hfail
    have hse : strEnds svgPathTag "path" = true := by with_unfolding_all decide
    have hel : process_element fuel (Elem.mk svgPathTag i c l (some d) pts tr) = some (1, []) := by
      simp [process_element, hse, truthyS, hd, hfail]
    induction pre with
    | nil =>
      simp only [List.nil_append]
      cases hpost : process_elements fuel post with
      | none => simp [process_elements, hel, hpost]
      | some wp => simp [process_elements, hel, hpost, Nat.add_comm]
    | cons e0 pre' ihp =>
      simp only [List.cons_append]
      cases he0 : process_element fuel e0 with
      | none => simp [process_elements, he0]
      | some w0 =>
        cases hr : process_elements fuel (pre' ++ post) with
        | none =>
          have h1 : process_elements fuel
              (pre' ++ Elem.mk svgPathTag i c l (some d) pts tr :: post) = none := by
            rw [ihp, hr]
            rfl
          simp [process_elements, he0, h1, hr]
        | some wr =>
          have h1 : process_elements fuel
              (pre' ++ Elem.mk svgPathTag i c l (some d) pts tr :: post) =
              some (wr.1 + 1, wr.2) := by
            rw [ihp, hr]
            rfl
          simp only [process_elements, he0, h1, hr, Option.map_some]
          refine congrArg some ?_
          refine Prod.ext ?_ rfl
          simp
          omega

theorem c8_witness :
    process_elements 10 ([] ++ Elem.mk svgPathTag none none none (some "M 5") none none :: []) =
      (process_elements 10 ([] ++ [])).map (fun r => (r.1 + 1, r.2)) :=
  c8_unexpected_end_recoverable.2.2.2 10 [] [] none none none none none "M 5"
    PathErr.unexpectedEnd (by with_unfolding_all decide)

/-- C9: a selector that matches nothing makes the program warn and fall back
to all path elements followed by all polygon elements, and the same
fallback list is used when no selector is given (without a warning). -/
theorem c9_selector_fallback (doc : List Elem) (k v : String) (hk : k ≠ "") (hv : v ≠ "")
    (hnone : select_elements doc k v = []) :
    choose_elems (some k) (some v) doc = (true, all_paths_polygons doc) ∧
    choose_elems none none doc = (false, all_paths_polygons doc) := by
  constructor
  · simp [choose_elems, truthyS, hk, hv, hnone, all_paths_polygons]
  · simp [choose_elems, truthyS, all_paths_polygons]

theorem c9_witness :
    choose_elems (some "id") (some "foo") [] = (true, all_paths_polygons []) ∧
    choose_elems none none [] = (false, all_paths_polygons []) :=
  c9_selector_fallback [] "id" "foo" (by simp) (by simp) rfl

/-- C10: a path whose d attribute is a single moveto gives a one-point
subpath (trivially closed), and the serializer's duplicate-closing-point
removal deletes that sole point, so the element contributes an empty
polygon to the output. -/
theorem c10_single_moveto :
    (∀ (f : Nat) (x y : ℚ),
      interpLoop (f + 1) [Tok.cmd 'M', Tok.num x, Tok.num y] (0, 0) none [] none =
        some (Except.ok [[(x, y)]]) ∧
      dropClosing (apply_simple_transform [(x, y)] 1 1 0 0) = []) ∧
    process_elements 100 [Elem.mk svgPathTag none none none (some "M3,4") none none] =
      some (0, [[]]) := by
  constructor
  · intro f x y
    constructor
    · simp [interpLoop, movPairs, closePoly, lastD]
    · simp [dropClosing, apply_simple_transform, lastD]
  · with_unfolding_all decide

end Svg2Walkable
